import Mathlib

/-!
Verification development for the accessibility description core of
src/src/accessibility/describe.js (p5.js describe / describeElement).

The DOM is modelled as a rose tree of element and text nodes.  Node
references held by the per-canvas store are modelled as child-index paths
into the tree held in the dummyDOM field of the instance state.  JavaScript
exceptions are modelled by an error component in every result:
JsErr.reserved models the explicit throw in the normalizers and
JsErr.typeErr models a null dereference (reading a property of
null/undefined).
-/

namespace Describe

/-- DOM node: an element with tag name, id attribute, further attributes and
children, or a text node.  Leaf content written through innerHTML is stored
as a single text child holding the assigned string. -/
inductive DNode where
  | elem (tag : String) (id : String) (attrs : List (String × String)) (children : List DNode)
  | text (s : String)

mutual

/-- Paths of all element nodes of a tree in document order (the root first,
then each child subtree in order).  Text nodes contribute no path. -/
def allPaths : DNode → List (List Nat)
  | .text _ => []
  | .elem _ _ _ ch => [] :: allPathsList ch 0

/-- Paths of all element nodes of a forest, in document order, with the
position of each root prepended. -/
def allPathsList : List DNode → Nat → List (List Nat)
  | [], _ => []
  | n :: ns, k => (allPaths n).map (k :: ·) ++ allPathsList ns (k + 1)

end

/-- Node of a tree at a child-index path, if the path is valid. -/
def getPath : List Nat → DNode → Option DNode
  | [], n => some n
  | _ :: _, .text _ => none
  | j :: p, .elem _ _ _ ch =>
    match ch[j]? with
    | some c => getPath p c
    | none => none

/-- Replace the list element at an index, leaving the list unchanged when the
index is out of range. -/
def listModify (g : α → α) : Nat → List α → List α
  | _, [] => []
  | 0, x :: xs => g x :: xs
  | j + 1, x :: xs => x :: listModify g j xs

/-- Apply a function to the node at a path, leaving the tree unchanged when
the path is invalid. -/
def modifyPath (f : DNode → DNode) : List Nat → DNode → DNode
  | [], n => f n
  | _ :: _, .text s => .text s
  | j :: p, .elem t i a ch => .elem t i a (listModify (modifyPath f p) j ch)

/-- Id attribute of the element at a path, if any. -/
def idAt (d : DNode) (p : List Nat) : Option String :=
  match getPath p d with
  | some (.elem _ i _ _) => some i
  | _ => none

/-- Tag name of the element at a path, if any. -/
def tagAt (d : DNode) (p : List Nat) : Option String :=
  match getPath p d with
  | some (.elem t _ _ _) => some t
  | _ => none

/-- First path in a list whose element carries a given id. -/
def findIdIn (d : DNode) (target : String) : List (List Nat) → Option (List Nat)
  | [] => none
  | p :: ps => if idAt d p = some target then some p else findIdIn d target ps

/-- Path of the first element, in document order, carrying a given id.
Models document.getElementById and the id case of querySelector. -/
def findIdPath (d : DNode) (target : String) : Option (List Nat) :=
  findIdIn d target (allPaths d)

/-- Ids of all element nodes of a tree in document order. -/
def idsOf (d : DNode) : List String :=
  (allPaths d).filterMap (fun p => idAt d p)

/-- Number of element nodes of a tree carrying a given id. -/
def countId (d : DNode) (i : String) : Nat :=
  (idsOf d).count i

/-- Attribute serialization used by the innerHTML read-back model. -/
def serializeAttrs : List (String × String) → String
  | [] => ""
  | (k, v) :: r => " " ++ k ++ "=\x22" ++ v ++ "\x22" ++ serializeAttrs r

mutual

/-- Markup serialization of a node, used to model reading innerHTML. -/
def serializeNode : DNode → String
  | .text s => s
  | .elem t i a ch =>
    "<" ++ t ++ (if i = "" then "" else " id=\x22" ++ i ++ "\x22") ++ serializeAttrs a ++ ">"
      ++ serializeKids ch ++ "</" ++ t ++ ">"

/-- Markup serialization of a forest. -/
def serializeKids : List DNode → String
  | [] => ""
  | n :: ns => serializeNode n ++ serializeKids ns

end

/-- Value read back from the innerHTML property of a node. -/
def innerStr : DNode → String
  | .text s => s
  | .elem _ _ _ ch => serializeKids ch

/-- Accumulator step for splitting a character list at spaces. -/
def splitSpAux : List Char → List Char → List String
  | [], acc => if acc.isEmpty then [] else [String.mk acc.reverse]
  | c :: cs, acc =>
    if c = ' ' then
      if acc.isEmpty then splitSpAux cs [] else String.mk acc.reverse :: splitSpAux cs []
    else splitSpAux cs (c :: acc)

/-- Split a selector string at spaces into its nonempty parts, modelling CSS
descendant combinator parsing. -/
def splitSp (s : String) : List String := splitSpAux s.data []

/-- Truth of one simple selector part against a node: an id part matches an
element with that id, a type part matches an element with that tag. -/
def selMatches (isIdSel : Bool) (v : String) : DNode → Bool
  | .elem t i _ _ => if isIdSel then i == v else t == v
  | .text _ => false

/-- Whether a chain of simple selector parts embeds, in order, into a list of
nodes (the ancestor chain of a candidate element). -/
def embedsIn : List (Bool × String) → List DNode → Bool
  | [], _ => true
  | _ :: _, [] => false
  | (b, v) :: ps, n :: ns => if selMatches b v n then embedsIn ps ns else embedsIn ((b, v) :: ps) ns

/-- Nodes at the proper prefixes of a path, from the root down to the parent:
the ancestor chain of the node at the path. -/
def ancestorNodes (d : DNode) (p : List Nat) : List DNode :=
  (List.range p.length).filterMap (fun k => getPath (p.take k) d)

/-- Model of querySelector applied to the string "#" ++ sel: a selector
without spaces is an id lookup; a selector with spaces is parsed as an id
part followed by descendant type parts, and the first element in document
order matching the chain is returned. -/
def qselPath (d : DNode) (sel : String) : Option (List Nat) :=
  match splitSp sel with
  | [] => none
  | base :: tags =>
    match tags.getLast? with
    | none => findIdPath d base
    | some lastTag =>
      (allPaths d).find? (fun p =>
        (match getPath p d with
         | some n => selMatches false lastTag n
         | none => false)
        && embedsIn ((true, base) :: tags.dropLast.map (fun t => (false, t))) (ancestorNodes d p))

/-- Replace the children of an element node. -/
def setKidsTo (ks : List DNode) : DNode → DNode
  | .elem t i a _ => .elem t i a ks
  | .text s => .text s

/-- Insert a node among the children of an element before a given index. -/
def insertKid (j : Nat) (x : DNode) : DNode → DNode
  | .elem t i a ch => .elem t i a (ch.take j ++ x :: ch.drop j)
  | .text s => .text s

/-- Append a node after the children of an element. -/
def appendKid (x : DNode) : DNode → DNode
  | .elem t i a ch => .elem t i a (ch ++ [x])
  | .text s => .text s

/-- Split a path into its parent path and final index. -/
def splitLastN : List Nat → Option (List Nat × Nat)
  | [] => none
  | [j] => some ([], j)
  | j :: p =>
    match splitLastN p with
    | some (q, x) => some (j :: q, x)
    | none => none

/-- Model of insertAdjacentHTML with position beforebegin at the node at a
path: the new node becomes the previous sibling. -/
def insertBeforePath (d : DNode) (p : List Nat) (x : DNode) : DNode :=
  match splitLastN p with
  | none => d
  | some (par, j) => modifyPath (insertKid j x) par d

/-- Model of insertAdjacentHTML with position afterend at the node at a
path: the new node becomes the next sibling. -/
def insertAfterPath (d : DNode) (p : List Nat) (x : DNode) : DNode :=
  match splitLastN p with
  | none => d
  | some (par, j) => modifyPath (insertKid (j + 1) x) par d

/-- Model of assigning a plain string to the innerHTML of the node at a
path: the children become a single text node holding the string. -/
def setInnerAt (d : DNode) (p : List Nat) (s : String) : DNode :=
  modifyPath (setKidsTo [.text s]) p d

/-- Model of appendChild on the node at a path. -/
def appendChildAt (d : DNode) (p : List Nat) (x : DNode) : DNode :=
  modifyPath (appendKid x) p d

/-- Model of reading innerHTML of the node at a path. -/
def readInnerAt (d : DNode) (p : List Nat) : String :=
  match getPath p d with
  | some n => innerStr n
  | none => ""

/-- JavaScript exceptions raised by the module: the explicit reserved-word
throw of the normalizers, and the TypeError of a null dereference. -/
inductive JsErr where
  | reserved
  | typeErr
deriving DecidableEq

/-- Whether a string ends with a given character, modelling the single
character uses of String.prototype.endsWith in the source. -/
def endsC (s : String) (c : Char) : Bool := s.data.getLast? == some c

/-- Disjunction of the five endsWith tests of _descriptionText: the text
already ends with a period, semicolon, comma, question mark or exclamation
mark. -/
def endsPunct (t : String) : Bool :=
  endsC t '.' || endsC t ';' || endsC t ',' || endsC t '?' || endsC t '!'

/-- Translation of the helper _descriptionText: reject the reserved words
label and fallback, then append a period unless the text already ends with
one of the five punctuation marks.  The source tests the negated
disjunction and appends; the branches here are the same two cases. -/
def descriptionText (text : String) : Except JsErr String :=
  if text = "label" ∨ text = "fallback" then Except.error JsErr.reserved
  else if endsPunct text then Except.ok text
  else Except.ok (text ++ ".")

/-- All characters of a string except the last one. -/
def stringDropLast (s : String) : String := String.mk s.data.dropLast

/-- Disjunction of the three endsWith tests of _elementName: the name ends
with a period, semicolon or comma. -/
def endsDots (n : String) : Bool := endsC n '.' || endsC n ';' || endsC n ','

/-- Translation of the helper _elementName: reject the reserved words, then
replace a final period, semicolon or comma with a colon, else append a colon
unless one is already present.  The regex replace of the final character is
modelled by dropping the last character and appending the colon. -/
def elementName (name : String) : Except JsErr String :=
  if name = "label" ∨ name = "fallback" then Except.error JsErr.reserved
  else if endsDots name then Except.ok (stringDropLast name ++ ":")
  else if endsC name ':' then Except.ok name
  else Except.ok (name ++ ":")

/-- Characters kept by the sanitizing regex replace: ASCII letters, digits
and the space. -/
def keepChar (c : Char) : Bool := c.isAlphanum || c == ' '

/-- Translation of the regex replace removing every character that is not an
ASCII letter, digit or space from an element name. -/
def sanitize (s : String) : String := String.mk (s.data.filter keepChar)

/-- Suffix of the fallback container id. -/
def descContainer : String := "_Description"

/-- Suffix of the fallback description paragraph id. -/
def fallbackDescId : String := "_fallbackDesc"

/-- Suffix of the fallback element table id. -/
def fallbackTableId : String := "_fallbackTable"

/-- Suffix prefix of fallback element row ids. -/
def fallbackTableElId : String := "_fte_"

/-- Suffix of the label container id. -/
def labelContainer : String := "_Label"

/-- Suffix of the label description paragraph id. -/
def labelDescId : String := "_labelDesc"

/-- Suffix of the label element table id. -/
def labelTableId : String := "_labelTable"

/-- Suffix prefix of label element row ids. -/
def labelTableElId : String := "_lte_"

/-- Attributes of the fallback region container. -/
def descRegionAttrs : List (String × String) :=
  [("role", "region"), ("aria-label", "Canvas Description")]

/-- Caption child of the fallback element table. -/
def captionNode : DNode :=
  .elem "caption" "" [] [.text "Canvas elements and their descriptions"]

/-- Empty fallback description paragraph. -/
def fallbackDescP (cnvId : String) : DNode := .elem "p" (cnvId ++ fallbackDescId) [] []

/-- Fallback container holding a fresh description paragraph, as created by
describe when no container exists. -/
def descContainerWithP (cnvId : String) : DNode :=
  .elem "div" (cnvId ++ descContainer) descRegionAttrs [fallbackDescP cnvId]

/-- Fallback element table with its caption. -/
def fallbackTable (cnvId : String) : DNode :=
  .elem "table" (cnvId ++ fallbackTableId) [] [captionNode]

/-- Fallback container holding a fresh element table, as created by
describeElement when no container exists. -/
def descContainerWithTable (cnvId : String) : DNode :=
  .elem "div" (cnvId ++ descContainer) descRegionAttrs [fallbackTable cnvId]

/-- Empty label description paragraph. -/
def labelDescP (cnvId : String) : DNode := .elem "p" (cnvId ++ labelDescId) [] []

/-- Label container holding a fresh description paragraph. -/
def labelContainerWithP (cnvId : String) : DNode :=
  .elem "div" (cnvId ++ labelContainer) [("class", "p5Label")] [labelDescP cnvId]

/-- Label element table, created without a caption. -/
def labelTable (cnvId : String) : DNode := .elem "table" (cnvId ++ labelTableId) [] []

/-- Label container holding a fresh element table. -/
def labelContainerWithTable (cnvId : String) : DNode :=
  .elem "div" (cnvId ++ labelContainer) [("class", "p5Label")] [labelTable cnvId]

/-- Fresh table row with a given id, as built by document.createElement
followed by the id assignment. -/
def trNode (id : String) : DNode := .elem "tr" id [] []

/-- Outcome of a scaffold helper: an exception escaped, a pair of a possibly
null node reference and the tree was returned, or the function fell off its
end returning undefined.  The tree component is the dummyDOM tree after the
in-place mutations the helper performed before that outcome. -/
inductive HelperRes where
  | threw (dom : DNode)
  | ret (refOpt : Option (List Nat)) (dom : DNode)
  | undef (dom : DNode)

/-- Translation of _describeFallbackHTML: locate or create the fallback
container and description paragraph, inserting before an accessible output
region when one exists, or before the element table when describeElement
already created the container; return the paragraph when it can be found. -/
def describeFallbackHTML (dummyDOM : DNode) (cnvId : String) : HelperRes :=
  let finish := fun (d1 : DNode) =>
    match qselPath d1 (cnvId ++ fallbackDescId) with
    | some p => HelperRes.ret (some p) d1
    | none => HelperRes.undef d1
  match qselPath dummyDOM (cnvId ++ descContainer) with
  | none =>
    match qselPath dummyDOM (cnvId ++ "accessibleOutput") with
    | none =>
      match qselPath dummyDOM cnvId with
      | none => HelperRes.threw dummyDOM
      | some cp => finish (modifyPath (setKidsTo [descContainerWithP cnvId]) cp dummyDOM)
    | some op => finish (insertBeforePath dummyDOM op (descContainerWithP cnvId))
  | some _ =>
    match qselPath dummyDOM (cnvId ++ fallbackTableId) with
    | none => HelperRes.threw dummyDOM
    | some tp => finish (insertBeforePath dummyDOM tp (fallbackDescP cnvId))

/-- Translation of _describeLabelHTML: locate or create the label container
and description paragraph adjacent to the canvas, before a label output
region when one exists, or before the label table when it exists. -/
def describeLabelHTML (dummyDOM : DNode) (cnvId : String) : HelperRes :=
  let finish := fun (d1 : DNode) =>
    match qselPath d1 (cnvId ++ labelDescId) with
    | some p => HelperRes.ret (some p) d1
    | none => HelperRes.undef d1
  match qselPath dummyDOM (cnvId ++ labelContainer) with
  | none =>
    match qselPath dummyDOM (cnvId ++ "accessibleOutputLabel") with
    | none =>
      match qselPath dummyDOM cnvId with
      | none => HelperRes.threw dummyDOM
      | some cp => finish (insertAfterPath dummyDOM cp (labelContainerWithP cnvId))
    | some op => finish (insertBeforePath dummyDOM op (labelContainerWithP cnvId))
  | some _ =>
    match qselPath dummyDOM (cnvId ++ labelTableId) with
    | none => finish dummyDOM
    | some tp => finish (insertBeforePath dummyDOM tp (labelDescP cnvId))

/-- Translation of _descElementFallbackHTML: locate or create the fallback
container and element table, insert the table after the description
paragraph when describe already created the container, append a fresh row,
and return the result of looking the row id up again. -/
def descElementFallbackHTML (dummyDOM : DNode) (cnvId : String) (name : String) : HelperRes :=
  let step2 := fun (d1 : DNode) =>
    match qselPath d1 (cnvId ++ fallbackTableId) with
    | none => HelperRes.threw d1
    | some tp =>
      let d2 := appendChildAt d1 tp (trNode (cnvId ++ fallbackTableElId ++ name))
      HelperRes.ret (qselPath d2 (cnvId ++ fallbackTableElId ++ name)) d2
  match qselPath dummyDOM (cnvId ++ descContainer) with
  | none =>
    match qselPath dummyDOM (cnvId ++ "accessibleOutput") with
    | none =>
      match qselPath dummyDOM cnvId with
      | none => HelperRes.threw dummyDOM
      | some cp => step2 (modifyPath (setKidsTo [descContainerWithTable cnvId]) cp dummyDOM)
    | some op => step2 (insertBeforePath dummyDOM op (descContainerWithTable cnvId))
  | some _ =>
    match qselPath dummyDOM (cnvId ++ fallbackTableId) with
    | some _ => step2 dummyDOM
    | none =>
      match qselPath dummyDOM (cnvId ++ fallbackDescId) with
      | none => HelperRes.threw dummyDOM
      | some pp => step2 (insertAfterPath dummyDOM pp (fallbackTable cnvId))

/-- Translation of _descElementLabelHTML: the label mirror of the fallback
element scaffold, attached adjacent to the canvas. -/
def descElementLabelHTML (dummyDOM : DNode) (cnvId : String) (name : String) : HelperRes :=
  let step2 := fun (d1 : DNode) =>
    match qselPath d1 (cnvId ++ labelTableId) with
    | none => HelperRes.threw d1
    | some tp =>
      let d2 := appendChildAt d1 tp (trNode (cnvId ++ labelTableElId ++ name))
      HelperRes.ret (qselPath d2 (cnvId ++ labelTableElId ++ name)) d2
  match qselPath dummyDOM (cnvId ++ labelContainer) with
  | none =>
    match qselPath dummyDOM (cnvId ++ "accessibleOutputLabel") with
    | none =>
      match qselPath dummyDOM cnvId with
      | none => HelperRes.threw dummyDOM
      | some cp => step2 (insertAfterPath dummyDOM cp (labelContainerWithTable cnvId))
    | some op => step2 (insertBeforePath dummyDOM op (labelContainerWithTable cnvId))
  | some _ =>
    match qselPath dummyDOM (cnvId ++ labelTableId) with
    | some _ => step2 dummyDOM
    | none =>
      match qselPath dummyDOM (cnvId ++ labelDescId) with
      | none => HelperRes.threw dummyDOM
      | some pp => step2 (insertAfterPath dummyDOM pp (labelTable cnvId))

/-- Per-canvas store of node references, mirroring this.descriptions: the
description and label paragraph references and the two element row maps.
A field holding none mirrors an absent property; a map entry holding none
mirrors a stored null. -/
structure Descriptions where
  fallback : Option (List Nat) := none
  label : Option (List Nat) := none
  fallbackElements : Option (List (String × Option (List Nat))) := none
  labelElements : Option (List (String × Option (List Nat))) := none

/-- Store with no fields populated, mirroring an empty object literal. -/
def emptyDescriptions : Descriptions := {}

/-- Instance state of the canvas object: its id, the cached parent of the
canvas element, and the per-canvas store. -/
structure PState where
  cnvId : String
  dummyDOM : Option DNode := none
  descriptions : Option Descriptions := none

/-- Lookup in an element row map, distinguishing an absent key from a key
whose stored value is null. -/
def alookup : List (String × Option (List Nat)) → String → Option (Option (List Nat))
  | [], _ => none
  | e :: l, k => if e.1 = k then some e.2 else alookup l k

/-- Write into an element row map, replacing the value of an existing key
and appending a new key otherwise. -/
def aset : List (String × Option (List Nat)) → String → Option (List Nat) →
    List (String × Option (List Nat))
  | [], k, v => [(k, v)]
  | e :: l, k, v => if e.1 = k then (k, v) :: l else e :: aset l k v

/-- Model of document.getElementById(id).parentNode during dummyDOM
acquisition: a TypeError when no element carries the id, null when the
element is the document root, and the parent subtree otherwise. -/
def parentOfId (doc : DNode) (id : String) : Except JsErr (Option DNode) :=
  match findIdPath doc id with
  | none => Except.error JsErr.typeErr
  | some [] => Except.ok none
  | some p => Except.ok (getPath p.dropLast doc)

/-- Write a string through a cached node reference into the dummyDOM tree;
with a null dummyDOM the write lands on a node this model no longer tracks,
so the tree is unchanged. -/
def writeRef (dd : Option DNode) (p : List Nat) (s : String) : Option DNode :=
  dd.map (fun d => setInnerAt d p s)

/-- Read the innerHTML of a cached node reference. -/
def readRef (dd : Option DNode) (p : List Nat) : String :=
  match dd with
  | some d => readInnerAt d p
  | none => ""

/-- Acquisition step shared by both facades: reuse a cached dummyDOM, else
look the canvas up in the document and take its parent. -/
def acquireDummy (doc : DNode) (st : PState) : Except JsErr (Option DNode) :=
  match st.dummyDOM with
  | some d => Except.ok (some d)
  | none => parentOfId doc st.cnvId

/-- Label half of describe, entered after the fallback upsert with the
current tree and store: runs only when display is the LABEL constant. -/
def describeLabelPart (cnvId : String) (txt : String) (display : Option String)
    (dd : Option DNode) (descs : Descriptions) : Option JsErr × PState :=
  let mk := fun (e : Option JsErr) (dd2 : Option DNode) (ds : Descriptions) =>
    (e, ({ cnvId := cnvId, dummyDOM := dd2, descriptions := some ds } : PState))
  if display = some "label" then
    match descs.label with
    | some ref =>
      let dd1 := if readRef dd ref = txt then dd else writeRef dd ref txt
      mk none dd1 descs
    | none =>
      match dd with
      | none => mk (some JsErr.typeErr) none descs
      | some dom =>
        match describeLabelHTML dom cnvId with
        | .threw d1 => mk (some JsErr.typeErr) (some d1) descs
        | .undef d1 => mk (some JsErr.typeErr) (some d1) descs
        | .ret none d1 => mk (some JsErr.typeErr) (some d1) descs
        | .ret (some ref) d1 =>
          mk none (writeRef (some d1) ref txt) { descs with label := some ref }
  else mk none dd descs

/-- Translation of p5.prototype.describe: validate and normalize the text,
acquire the dummyDOM, ensure the store object, upsert the fallback
description through the cache, and repeat for the label when display is the
LABEL constant. -/
def describe (doc : DNode) (st : PState) (text : String) (display : Option String) :
    Option JsErr × PState :=
  match descriptionText text with
  | .error e => (some e, st)
  | .ok txt =>
    match acquireDummy doc st with
    | .error e => (some e, st)
    | .ok dd0 =>
      let descs0 := st.descriptions.getD emptyDescriptions
      match descs0.fallback with
      | some ref =>
        let dd1 := if readRef dd0 ref = txt then dd0 else writeRef dd0 ref txt
        describeLabelPart st.cnvId txt display dd1 descs0
      | none =>
        match dd0 with
        | none => (some JsErr.typeErr, { st with dummyDOM := none, descriptions := some descs0 })
        | some dom =>
          match describeFallbackHTML dom st.cnvId with
          | .threw d1 =>
            (some JsErr.typeErr, { st with dummyDOM := some d1, descriptions := some descs0 })
          | .undef d1 =>
            (some JsErr.typeErr, { st with dummyDOM := some d1, descriptions := some descs0 })
          | .ret none d1 =>
            (some JsErr.typeErr, { st with dummyDOM := some d1, descriptions := some descs0 })
          | .ret (some ref) d1 =>
            describeLabelPart st.cnvId txt display (writeRef (some d1) ref txt)
              { descs0 with fallback := some ref }

/-- Row content template of describeElement: a header cell with the
normalized name and a data cell with the normalized text. -/
def thtd (en : String) (t : String) : String :=
  "<th scope=\x22row\x22>" ++ en ++ "</th><td>" ++ t ++ "</td>"

/-- Label half of describeElement, entered after the fallback row upsert:
ensures the label row map, then upserts the label row when display is the
LABEL constant. -/
def descElementLabelPart (cnvId : String) (key : String) (inner : String)
    (display : Option String) (dd : Option DNode) (descs : Descriptions) :
    Option JsErr × PState :=
  let mk := fun (e : Option JsErr) (dd2 : Option DNode) (ds : Descriptions) =>
    (e, ({ cnvId := cnvId, dummyDOM := dd2, descriptions := some ds } : PState))
  if display = some "label" then
    let les0 := descs.labelElements.getD []
    let descs0 := { descs with labelElements := some les0 }
    match alookup les0 key with
    | some (some ref) =>
      let dd1 := if readRef dd ref = inner then dd else writeRef dd ref inner
      mk none dd1 descs0
    | _ =>
      match dd with
      | none => mk (some JsErr.typeErr) none descs0
      | some dom =>
        match descElementLabelHTML dom cnvId key with
        | .threw d1 => mk (some JsErr.typeErr) (some d1) descs0
        | .undef d1 => mk (some JsErr.typeErr) (some d1) descs0
        | .ret r d1 =>
          let descs1 := { descs0 with labelElements := some (aset les0 key r) }
          match r with
          | none => mk (some JsErr.typeErr) (some d1) descs1
          | some ref => mk none (writeRef (some d1) ref inner) descs1
  else mk none dd descs

/-- Translation of p5.prototype.describeElement: validate and normalize both
arguments, sanitize the name into the row key, compose the row content,
acquire the dummyDOM, ensure the store and its fallback row map, upsert the
fallback row through the cache, and repeat for the label row when display is
the LABEL constant. -/
def describeElement (doc : DNode) (st : PState) (name : String) (text : String)
    (display : Option String) : Option JsErr × PState :=
  match descriptionText text with
  | .error e => (some e, st)
  | .ok txt =>
    match elementName name with
    | .error e => (some e, st)
    | .ok elName =>
      let key := sanitize name
      let inner := thtd elName txt
      match acquireDummy doc st with
      | .error e => (some e, st)
      | .ok dd0 =>
        let descsA := st.descriptions.getD emptyDescriptions
        let fes0 := descsA.fallbackElements.getD []
        let descs0 := { descsA with fallbackElements := some fes0 }
        match alookup fes0 key with
        | some (some ref) =>
          let dd1 := if readRef dd0 ref = inner then dd0 else writeRef dd0 ref inner
          descElementLabelPart st.cnvId key inner display dd1 descs0
        | _ =>
          match dd0 with
          | none =>
            (some JsErr.typeErr, { st with dummyDOM := none, descriptions := some descs0 })
          | some dom =>
            match descElementFallbackHTML dom st.cnvId key with
            | .threw d1 =>
              (some JsErr.typeErr, { st with dummyDOM := some d1, descriptions := some descs0 })
            | .undef d1 =>
              (some JsErr.typeErr, { st with dummyDOM := some d1, descriptions := some descs0 })
            | .ret r d1 =>
              let descs1 := { descs0 with fallbackElements := some (aset fes0 key r) }
              match r with
              | none =>
                (some JsErr.typeErr, { st with dummyDOM := some d1, descriptions := some descs1 })
              | some ref =>
                descElementLabelPart st.cnvId key inner display (writeRef (some d1) ref inner)
                  descs1

/-- Normalized description text returned in the success case of
_descriptionText. -/
def normD (t : String) : String := if endsPunct t then t else t ++ "."

/-- Normalized element name returned in the success case of _elementName. -/
def normN (n : String) : String :=
  if endsDots n then stringDropLast n ++ ":"
  else if endsC n ':' then n else n ++ ":"

/-- A sketch container holding one canvas element with id cnv, the document
shape every scenario starts from. -/
def doc0 : DNode := .elem "div" "main" [] [.elem "canvas" "cnv" [] []]

/-- Instance state before any description call. -/
def st0 : PState := { cnvId := "cnv" }

/-- A document in which no element carries the canvas id. -/
def docDetached : DNode := .elem "div" "main" [] []

/-- Tree after the element scaffold has appended an empty row for key k. -/
def domE0 (k : String) : DNode :=
  .elem "div" "main" []
    [.elem "canvas" "cnv" []
      [.elem "div" "cnv_Description" descRegionAttrs
        [.elem "table" "cnv_fallbackTable" []
          [captionNode, .elem "tr" ("cnv_fte_" ++ k) [] []]]]]


/-- Tree after the element scaffold has built container and table, before
the row is appended. -/
def domA : DNode :=
  .elem "div" "main" []
    [.elem "canvas" "cnv" []
      [.elem "div" "cnv_Description" descRegionAttrs
        [.elem "table" "cnv_fallbackTable" [] [captionNode]]]]


/-- Tree after a fallback-only describeElement call on a fresh canvas: the
row for key k holds the composed row content. -/
def domE (k inner : String) : DNode :=
  .elem "div" "main" []
    [.elem "canvas" "cnv" []
      [.elem "div" "cnv_Description" descRegionAttrs
        [.elem "table" "cnv_fallbackTable" []
          [captionNode, .elem "tr" ("cnv_fte_" ++ k) [] [.text inner]]]]]


/-- Store after a fallback-only describeElement call on a fresh canvas. -/
def descsE (k : String) : Descriptions :=
  { fallbackElements := some [(k, some [0, 0, 0, 1])] }


/-- Tree after a fallback-only describe call on a fresh canvas: the
description paragraph holds the normalized text. -/
def domF (s : String) : DNode :=
  .elem "div" "main" []
    [.elem "canvas" "cnv" []
      [.elem "div" "cnv_Description" descRegionAttrs
        [.elem "p" "cnv_fallbackDesc" [] [.text s]]]]


/-- Store after a fallback-only describe call on a fresh canvas. -/
def descsF : Descriptions := { fallback := some [0, 0, 0] }


/-- Instance state after a fallback-only describe call on a fresh canvas. -/
def stF (s : String) : PState := ⟨"cnv", some (domF s), some descsF⟩


/-- Tree after a describe call with the LABEL display on a fresh canvas:
the label container sits adjacent to the canvas. -/
def domFL (s : String) : DNode :=
  .elem "div" "main" []
    [.elem "canvas" "cnv" []
      [.elem "div" "cnv_Description" descRegionAttrs
        [.elem "p" "cnv_fallbackDesc" [] [.text s]]],
     .elem "div" "cnv_Label" [("class", "p5Label")]
      [.elem "p" "cnv_labelDesc" [] [.text s]]]


/-- Store after a describe call with the LABEL display on a fresh canvas. -/
def descsFL : Descriptions := { fallback := some [0, 0, 0], label := some [1, 0] }


/-- Instance state after a fallback-only describeElement call on a fresh
canvas. -/
def stE (k i : String) : PState := ⟨"cnv", some (domE k i), some (descsE k)⟩


/-- Tree holding both the description paragraph and the element table in
the same container, the paragraph first: the common result of both call
orders. -/
def domM (s k i : String) : DNode :=
  .elem "div" "main" []
    [.elem "canvas" "cnv" []
      [.elem "div" "cnv_Description" descRegionAttrs
        [.elem "p" "cnv_fallbackDesc" [] [.text s],
         .elem "table" "cnv_fallbackTable" []
          [captionNode, .elem "tr" ("cnv_fte_" ++ k) [] [.text i]]]]]


/-- Store after describeElement then describe: the row reference predates
the paragraph insertion that shifted the table. -/
def descsME (k : String) : Descriptions :=
  { fallback := some [0, 0, 0], fallbackElements := some [(k, some [0, 0, 0, 1])] }


/-- Store after describe then describeElement. -/
def descsMF (k : String) : Descriptions :=
  { fallback := some [0, 0, 0], fallbackElements := some [(k, some [0, 0, 1, 1])] }


/-- Tree after describe then the element scaffold with its fresh empty
row. -/
def domMF1 (s k : String) : DNode :=
  .elem "div" "main" []
    [.elem "canvas" "cnv" []
      [.elem "div" "cnv_Description" descRegionAttrs
        [.elem "p" "cnv_fallbackDesc" [] [.text s],
         .elem "table" "cnv_fallbackTable" []
          [captionNode, .elem "tr" ("cnv_fte_" ++ k) [] []]]]]


/-- Tree after describe then the element scaffold before the row append:
the table was inserted after the description paragraph. -/
def domMF0 (s : String) : DNode :=
  .elem "div" "main" []
    [.elem "canvas" "cnv" []
      [.elem "div" "cnv_Description" descRegionAttrs
        [.elem "p" "cnv_fallbackDesc" [] [.text s],
         .elem "table" "cnv_fallbackTable" [] [captionNode]]]]


/-- Tree after the label element scaffold attached the label container and
its empty table. -/
def domEL0 (k i : String) : DNode :=
  .elem "div" "main" []
    [.elem "canvas" "cnv" []
      [.elem "div" "cnv_Description" descRegionAttrs
        [.elem "table" "cnv_fallbackTable" []
          [captionNode, .elem "tr" ("cnv_fte_" ++ k) [] [.text i]]]],
     .elem "div" "cnv_Label" [("class", "p5Label")]
      [.elem "table" "cnv_labelTable" [] []]]


/-- Tree after the label element scaffold appended the empty label row. -/
def domEL1 (k i : String) : DNode :=
  .elem "div" "main" []
    [.elem "canvas" "cnv" []
      [.elem "div" "cnv_Description" descRegionAttrs
        [.elem "table" "cnv_fallbackTable" []
          [captionNode, .elem "tr" ("cnv_fte_" ++ k) [] [.text i]]]],
     .elem "div" "cnv_Label" [("class", "p5Label")]
      [.elem "table" "cnv_labelTable" [] [.elem "tr" ("cnv_lte_" ++ k) [] []]]]


/-- Tree after a describeElement call with the LABEL display on a fresh
canvas: fallback and label rows both hold the row content. -/
def domEL (k i : String) : DNode :=
  .elem "div" "main" []
    [.elem "canvas" "cnv" []
      [.elem "div" "cnv_Description" descRegionAttrs
        [.elem "table" "cnv_fallbackTable" []
          [captionNode, .elem "tr" ("cnv_fte_" ++ k) [] [.text i]]]],
     .elem "div" "cnv_Label" [("class", "p5Label")]
      [.elem "table" "cnv_labelTable" [] [.elem "tr" ("cnv_lte_" ++ k) [] [.text i]]]]


/-- Store after a describeElement call with the LABEL display on a fresh
canvas. -/
def descsEL (k : String) : Descriptions :=
  { fallbackElements := some [(k, some [0, 0, 0, 1])],
    labelElements := some [(k, some [1, 0, 0])] }

lemma string_mk_data (s : String) : String.mk s.data = s := by
  cases s
  rfl

lemma ne_reserved_of_getLast (s : String) (c : Char) (hs : s.data.getLast? = some c)
    (h1 : c ≠ 'l') (h2 : c ≠ 'k') : s ≠ "label" ∧ s ≠ "fallback" := by
  constructor
  · intro h
    subst h
    simp only [show ("label" : String).data.getLast? = some 'l' from rfl,
      Option.some.injEq] at hs
    exact h1 hs.symm
  · intro h
    subst h
    simp only [show ("fallback" : String).data.getLast? = some 'k' from rfl,
      Option.some.injEq] at hs
    exact h2 hs.symm

lemma getLast_append_dot (t : String) : (t ++ ".").data.getLast? = some '.' := by
  simp [String.data_append]

lemma getLast_append_colon (t : String) : (t ++ ":").data.getLast? = some ':' := by
  simp [String.data_append]

lemma endsC_of_getLast {s : String} {c : Char} (h : s.data.getLast? = some c) (d : Char) :
    endsC s d = (c == d) := by
  simp [endsC, h]

lemma descriptionText_ok (t : String) (h1 : t ≠ "label") (h2 : t ≠ "fallback") :
    descriptionText t = Except.ok (normD t) := by
  unfold descriptionText normD
  rw [if_neg (by simp [h1, h2])]
  by_cases h : endsPunct t = true
  · rw [if_pos h, if_pos h]
  · rw [if_neg h, if_neg h]

lemma elementName_ok (n : String) (h1 : n ≠ "label") (h2 : n ≠ "fallback") :
    elementName n = Except.ok (normN n) := by
  unfold elementName normN
  rw [if_neg (by simp [h1, h2])]
  by_cases hd : endsDots n = true
  · rw [if_pos hd, if_pos hd]
  · rw [if_neg hd, if_neg hd]
    by_cases hc : endsC n ':' = true
    · rw [if_pos hc, if_pos hc]
    · rw [if_neg hc, if_neg hc]

lemma endsPunct_normD (t : String) : endsPunct (normD t) = true := by
  unfold normD
  by_cases h : endsPunct t = true
  · rw [if_pos h]
    exact h
  · rw [if_neg h]
    unfold endsPunct
    rw [endsC_of_getLast (getLast_append_dot t)]
    rfl

lemma normD_not_reserved (t : String) : normD t ≠ "label" ∧ normD t ≠ "fallback" := by
  constructor
  · intro h
    have := endsPunct_normD t
    rw [h] at this
    simp [endsPunct, endsC] at this
  · intro h
    have := endsPunct_normD t
    rw [h] at this
    simp [endsPunct, endsC] at this

lemma normD_idem (t : String) : normD (normD t) = normD t := by
  rw [normD, if_pos (endsPunct_normD t)]

lemma normN_getLast (n : String) : (normN n).data.getLast? = some ':' := by
  unfold normN
  by_cases h : endsDots n = true
  · rw [if_pos h]
    exact getLast_append_colon _
  · rw [if_neg h]
    by_cases h2 : endsC n ':' = true
    · rw [if_pos h2]
      simpa [endsC] using h2
    · rw [if_neg h2]
      exact getLast_append_colon _

lemma normN_not_reserved (n : String) : normN n ≠ "label" ∧ normN n ≠ "fallback" :=
  ne_reserved_of_getLast _ _ (normN_getLast n) (by decide) (by decide)

lemma endsDots_normN (n : String) : endsDots (normN n) = false := by
  rw [endsDots, endsC_of_getLast (normN_getLast n), endsC_of_getLast (normN_getLast n),
    endsC_of_getLast (normN_getLast n)]
  rfl

lemma endsColon_normN (n : String) : endsC (normN n) ':' = true := by
  rw [endsC_of_getLast (normN_getLast n)]
  rfl

lemma normN_idem (n : String) : normN (normN n) = normN n := by
  rw [normN, if_neg (by simp [endsDots_normN]), if_pos (endsColon_normN n)]

/-- The C8 claim: on non-reserved text, the description normalizer returns
the text unchanged when it already ends with one of period, semicolon,
comma, question mark or exclamation mark, and otherwise appends a period;
in particular the two documented examples. -/
theorem c8_normalizeDescription :
    (∀ t : String, t ≠ "label" → t ≠ "fallback" →
      (endsPunct t = true → descriptionText t = Except.ok t) ∧
      (endsPunct t = false → descriptionText t = Except.ok (t ++ "."))) ∧
    descriptionText "Blue square" = Except.ok "Blue square." ∧
    descriptionText "Blue square!" = Except.ok "Blue square!" := by
  refine ⟨fun t h1 h2 => ⟨fun he => ?_, fun he => ?_⟩, rfl, rfl⟩
  · rw [descriptionText_ok t h1 h2, normD, if_pos he]
  · rw [descriptionText_ok t h1 h2, normD, if_neg (by simp [he])]

/-- Witness for c8_normalizeDescription at the concrete inputs of the
claim. -/
theorem c8_witness :
    descriptionText "Blue square" = Except.ok "Blue square." ∧
    descriptionText "Blue square!" = Except.ok "Blue square!" :=
  ⟨(c8_normalizeDescription.1 "Blue square" (by decide) (by decide)).2 rfl,
   (c8_normalizeDescription.1 "Blue square!" (by decide) (by decide)).1 rfl⟩

/-- The C9 claim: on non-reserved names, the element-name normalizer
replaces a final period, semicolon or comma with a colon, keeps a name
already ending with a colon, and otherwise appends a colon; in particular
the two documented examples. -/
theorem c9_normalizeElementName :
    (∀ n : String, n ≠ "label" → n ≠ "fallback" →
      (endsDots n = true → elementName n = Except.ok (stringDropLast n ++ ":")) ∧
      (endsDots n = false → endsC n ':' = true → elementName n = Except.ok n) ∧
      (endsDots n = false → endsC n ':' = false → elementName n = Except.ok (n ++ ":"))) ∧
    elementName "Circle" = Except.ok "Circle:" ∧
    elementName "Circle," = Except.ok "Circle:" := by
  refine ⟨fun n h1 h2 => ⟨fun hd => ?_, fun hd hc => ?_, fun hd hc => ?_⟩, rfl, rfl⟩
  · rw [elementName_ok n h1 h2, normN, if_pos hd]
  · rw [elementName_ok n h1 h2, normN, if_neg (by simp [hd]), if_pos hc]
  · rw [elementName_ok n h1 h2, normN, if_neg (by simp [hd]), if_neg (by simp [hc])]

/-- Witness for c9_normalizeElementName at the concrete inputs of the
claim. -/
theorem c9_witness :
    elementName "Circle" = Except.ok "Circle:" ∧
    elementName "Circle," = Except.ok "Circle:" :=
  ⟨(c9_normalizeElementName.1 "Circle" (by decide) (by decide)).2.2 rfl rfl,
   (c9_normalizeElementName.1 "Circle," (by decide) (by decide)).1 rfl⟩

/-- The C10 claim: both normalizers are idempotent, and a successful output
is never itself reserved, so the second application succeeds and is the
identity on it. -/
theorem c10_idempotent :
    ∀ s t : String,
      (descriptionText s = Except.ok t → descriptionText t = Except.ok t) ∧
      (elementName s = Except.ok t → elementName t = Except.ok t) := by
  intro s t
  constructor
  · intro h
    by_cases hres : s = "label" ∨ s = "fallback"
    · rw [descriptionText, if_pos hres] at h
      cases h
    · push_neg at hres
      rw [descriptionText_ok s hres.1 hres.2] at h
      cases h
      rw [descriptionText_ok (normD s) (normD_not_reserved s).1 (normD_not_reserved s).2,
        normD_idem]
  · intro h
    by_cases hres : s = "label" ∨ s = "fallback"
    · rw [elementName, if_pos hres] at h
      cases h
    · push_neg at hres
      rw [elementName_ok s hres.1 hres.2] at h
      cases h
      rw [elementName_ok (normN s) (normN_not_reserved s).1 (normN_not_reserved s).2,
        normN_idem]

/-- Witness for c10_idempotent: both normalizers are the identity on their
own outputs for the concrete inputs Blue square and Circle. -/
theorem c10_witness :
    descriptionText "Blue square." = Except.ok "Blue square." ∧
    elementName "Circle:" = Except.ok "Circle:" :=
  ⟨(c10_idempotent "Blue square" "Blue square.").1 rfl,
   (c10_idempotent "Circle" "Circle:").2 rfl⟩

lemma describeLabelPart_not_reserved (c t : String) (d : Option String) (dd : Option DNode)
    (ds : Descriptions) : (describeLabelPart c t d dd ds).1 ≠ some JsErr.reserved := by
  unfold describeLabelPart
  dsimp only
  split
  · split
    · simp
    · split
      · simp
      · split <;> simp
  · simp

lemma descElementLabelPart_not_reserved (c k i : String) (d : Option String)
    (dd : Option DNode) (ds : Descriptions) :
    (descElementLabelPart c k i d dd ds).1 ≠ some JsErr.reserved := by
  unfold descElementLabelPart
  dsimp only
  split
  · split
    · simp
    · split
      · simp
      · split
        · simp
        · simp
        · split <;> simp
  · simp

lemma acquireDummy_error (doc : DNode) (st : PState) (e : JsErr)
    (h : acquireDummy doc st = Except.error e) : e = JsErr.typeErr := by
  unfold acquireDummy at h
  split at h
  · cases h
  · unfold parentOfId at h
    split at h
    · exact (Except.error.inj h).symm
    · cases h
    · cases h

lemma describe_reserved (doc : DNode) (st : PState) (text : String) (display : Option String)
    (hres : text = "label" ∨ text = "fallback") :
    describe doc st text display = (some JsErr.reserved, st) := by
  unfold describe descriptionText
  rw [if_pos hres]

lemma describe_not_reserved (doc : DNode) (st : PState) (text : String)
    (display : Option String) (h1 : text ≠ "label") (h2 : text ≠ "fallback") :
    (describe doc st text display).1 ≠ some JsErr.reserved := by
  unfold describe
  rw [descriptionText_ok text h1 h2]
  dsimp only
  split
  · rename_i e heq
    simp [acquireDummy_error doc st e heq]
  · split
    · apply describeLabelPart_not_reserved
    · split
      · simp
      · split
        · simp
        · simp
        · simp
        · apply describeLabelPart_not_reserved

lemma describeElement_reserved_text (doc : DNode) (st : PState) (name text : String)
    (display : Option String) (hres : text = "label" ∨ text = "fallback") :
    describeElement doc st name text display = (some JsErr.reserved, st) := by
  unfold describeElement descriptionText
  rw [if_pos hres]

lemma describeElement_reserved_name (doc : DNode) (st : PState) (name text : String)
    (display : Option String) (h1 : text ≠ "label") (h2 : text ≠ "fallback")
    (hres : name = "label" ∨ name = "fallback") :
    describeElement doc st name text display = (some JsErr.reserved, st) := by
  unfold describeElement
  rw [descriptionText_ok text h1 h2]
  dsimp only
  unfold elementName
  rw [if_pos hres]

lemma describeElement_not_reserved (doc : DNode) (st : PState) (name text : String)
    (display : Option String) (h1 : text ≠ "label") (h2 : text ≠ "fallback")
    (h3 : name ≠ "label") (h4 : name ≠ "fallback") :
    (describeElement doc st name text display).1 ≠ some JsErr.reserved := by
  unfold describeElement
  rw [descriptionText_ok text h1 h2, elementName_ok name h3 h4]
  dsimp only
  split
  · rename_i e heq
    simp [acquireDummy_error doc st e heq]
  · split
    · apply descElementLabelPart_not_reserved
    · split
      · simp
      · split
        · simp
        · simp
        · split
          · simp
          · apply descElementLabelPart_not_reserved

/-- The C5 claim: describe and describeElement raise the reserved-word error
exactly when the raw text or name argument equals label or fallback, the
error escapes to the caller, and in that case the instance state, its store
and its tree are exactly as before the call. -/
theorem c5_reserved_iff (doc : DNode) (st : PState) (name text : String)
    (display : Option String) :
    ((describe doc st text display).1 = some JsErr.reserved ↔
      text = "label" ∨ text = "fallback") ∧
    ((text = "label" ∨ text = "fallback") →
      describe doc st text display = (some JsErr.reserved, st)) ∧
    ((describeElement doc st name text display).1 = some JsErr.reserved ↔
      (text = "label" ∨ text = "fallback") ∨ (name = "label" ∨ name = "fallback")) ∧
    (((text = "label" ∨ text = "fallback") ∨ (name = "label" ∨ name = "fallback")) →
      describeElement doc st name text display = (some JsErr.reserved, st)) := by
  refine ⟨⟨fun h => ?_, fun h => by rw [describe_reserved doc st text display h]⟩,
    fun h => describe_reserved doc st text display h,
    ⟨fun h => ?_, fun h => ?_⟩, fun h => ?_⟩
  · by_cases hres : text = "label" ∨ text = "fallback"
    · exact hres
    · push_neg at hres
      exact absurd h (describe_not_reserved doc st text display hres.1 hres.2)
  · by_cases hres : text = "label" ∨ text = "fallback"
    · exact Or.inl hres
    · push_neg at hres
      by_cases hnres : name = "label" ∨ name = "fallback"
      · exact Or.inr hnres
      · push_neg at hnres
        exact absurd h (describeElement_not_reserved doc st name text display
          hres.1 hres.2 hnres.1 hnres.2)
  · rcases h with h | h
    · rw [describeElement_reserved_text doc st name text display h]
    · by_cases hres : text = "label" ∨ text = "fallback"
      · rw [describeElement_reserved_text doc st name text display hres]
      · push_neg at hres
        rw [describeElement_reserved_name doc st name text display hres.1 hres.2 h]
  · rcases h with h | h
    · rw [describeElement_reserved_text doc st name text display h]
    · by_cases hres : text = "label" ∨ text = "fallback"
      · rw [describeElement_reserved_text doc st name text display hres]
      · push_neg at hres
        rw [describeElement_reserved_name doc st name text display hres.1 hres.2 h]

/-- Witness for c5_reserved_iff: at the concrete reserved input label both
calls fail with the reserved-word error and return the state unchanged, and
at a non-reserved input neither raises the reserved-word error. -/
theorem c5_witness :
    describe doc0 st0 "label" none = (some JsErr.reserved, st0) ∧
    describeElement doc0 st0 "label" "x" none = (some JsErr.reserved, st0) ∧
    ¬ ((describe doc0 st0 "hi" none).1 = some JsErr.reserved) :=
  ⟨(c5_reserved_iff doc0 st0 "x" "label" none).2.1 (Or.inl rfl),
   (c5_reserved_iff doc0 st0 "label" "x" none).2.2.2 (Or.inr (Or.inl rfl)),
   fun h => by
    have := ((c5_reserved_iff doc0 st0 "x" "hi" none).1).mp h
    simp at this⟩

/-- Counterexample to the C1 claim: with the canvas root detached (no
element carries the canvas id) a describe call does not complete silently;
the null dereference of the parentNode access escapes as a TypeError, and
likewise for describeElement. -/
theorem c1_counterexample :
    ¬ ((describe docDetached st0 "hi" none).1 = none) ∧
    (describe docDetached st0 "hi" none).1 = some JsErr.typeErr ∧
    (describeElement docDetached st0 "Circle" "hi" none).1 = some JsErr.typeErr := by
  refine ⟨fun h => ?_, rfl, rfl⟩
  have : (describe docDetached st0 "hi" none).1 = some JsErr.typeErr := rfl
  rw [this] at h
  cases h

/-- Amended C1 claim: when no element carries the canvas id and no dummyDOM
is cached, describe and describeElement raise a TypeError to the caller
(rather than completing silently); they cache no node reference and leave
the store and the state exactly unchanged. -/
theorem c1_amended (cnvId : String) (doc : DNode) (ds : Option Descriptions)
    (text name : String) (display : Option String)
    (h1 : text ≠ "label") (h2 : text ≠ "fallback")
    (h3 : name ≠ "label") (h4 : name ≠ "fallback")
    (hdet : findIdPath doc cnvId = none) :
    describe doc ⟨cnvId, none, ds⟩ text display =
      (some JsErr.typeErr, ⟨cnvId, none, ds⟩) ∧
    describeElement doc ⟨cnvId, none, ds⟩ name text display =
      (some JsErr.typeErr, ⟨cnvId, none, ds⟩) := by
  constructor
  · unfold describe
    rw [descriptionText_ok text h1 h2]
    unfold acquireDummy parentOfId
    dsimp only
    rw [hdet]
  · unfold describeElement
    rw [descriptionText_ok text h1 h2, elementName_ok name h3 h4]
    unfold acquireDummy parentOfId
    dsimp only
    rw [hdet]

/-- Witness for c1_amended at the concrete detached document. -/
theorem c1_witness :
    describe docDetached st0 "hi" none = (some JsErr.typeErr, st0) ∧
    describeElement docDetached st0 "Circle" "hi" none = (some JsErr.typeErr, st0) :=
  c1_amended "cnv" docDetached none "hi" "Circle" none
    (by decide) (by decide) (by decide) (by decide) rfl

lemma take8_fte (k : String) : ("cnv_fte_" ++ k).data.take 8 = ("cnv_fte_" : String).data := by
  rfl


lemma fte_ne (k s : String) (h : s.data.take 8 ≠ ("cnv_fte_" : String).data) :
    ("cnv_fte_" ++ k) ≠ s ∧ s ≠ ("cnv_fte_" ++ k) := by
  constructor
  · intro he
    exact h (by rw [← he, take8_fte])
  · intro he
    exact h (by rw [he, take8_fte])


lemma findRow_domE0 (k : String) :
    findIdPath (domE0 k) ("cnv_fte_" ++ k) = some [0, 0, 0, 1] := by
  obtain ⟨n1, n1s⟩ := fte_ne k "main" (by decide)
  obtain ⟨n2, n2s⟩ := fte_ne k "cnv" (by decide)
  obtain ⟨n3, n3s⟩ := fte_ne k "cnv_Description" (by decide)
  obtain ⟨n4, n4s⟩ := fte_ne k "cnv_fallbackTable" (by decide)
  obtain ⟨n5, n5s⟩ := fte_ne k "" (by decide)
  simp [findIdPath, domE0, allPaths, allPathsList, findIdIn, idAt, getPath, captionNode,
    n1s, n2s, n3s, n4s, n5s]


lemma nospace_fte (k : String) (hk : ∀ c ∈ k.data, c ≠ ' ') :
    ∀ c ∈ ("cnv_fte_" ++ k).data, c ≠ ' ' := by
  rw [String.data_append]
  intro c hc
  rcases List.mem_append.mp hc with h | h
  · have hconc : ∀ c ∈ ("cnv_fte_" : String).data, c ≠ ' ' := by decide
    exact hconc c h
  · exact hk c h


lemma splitSpAux_nospace (l : List Char) (h : ∀ c ∈ l, c ≠ ' ') : ∀ acc : List Char,
    splitSpAux l acc =
      if (acc.reverse ++ l).isEmpty then [] else [String.mk (acc.reverse ++ l)] := by
  induction l with
  | nil =>
    intro acc
    cases acc <;> simp [splitSpAux]
  | cons c cs ih =>
    intro acc
    have hc : c ≠ ' ' := h c (by simp)
    have hcs : ∀ x ∈ cs, x ≠ ' ' := fun x hx => h x (by simp [hx])
    rw [splitSpAux, if_neg hc, ih hcs (c :: acc)]
    simp


lemma splitSp_nospace (s : String) (hne : s.data ≠ []) (h : ∀ c ∈ s.data, c ≠ ' ') :
    splitSp s = [s] := by
  unfold splitSp
  rw [splitSpAux_nospace s.data h []]
  simp [hne, string_mk_data]


lemma qselPath_nospace (d : DNode) (s : String) (hne : s.data ≠ []) (h : ∀ c ∈ s.data, c ≠ ' ') :
    qselPath d s = findIdPath d s := by
  unfold qselPath
  rw [splitSp_nospace s hne h]
  rfl


lemma fte_data_ne_nil (k : String) : ("cnv_fte_" ++ k).data ≠ [] := by
  rw [String.data_append]
  simp



lemma descElementFallbackHTML_fresh (k : String) (hk : ∀ c ∈ k.data, c ≠ ' ') :
    descElementFallbackHTML doc0 "cnv" k = HelperRes.ret (some [0, 0, 0, 1]) (domE0 k) := by
  have hrow : qselPath (domE0 k) ("cnv" ++ fallbackTableElId ++ k) = some [0, 0, 0, 1] := by
    rw [show ("cnv" : String) ++ fallbackTableElId ++ k = "cnv_fte_" ++ k from rfl,
      qselPath_nospace _ _ (fte_data_ne_nil k) (nospace_fte k hk), findRow_domE0]
  unfold descElementFallbackHTML
  rw [show qselPath doc0 ("cnv" ++ descContainer) = none from rfl,
    show qselPath doc0 ("cnv" ++ "accessibleOutput") = none from rfl,
    show qselPath doc0 "cnv" = some [0] from rfl]
  dsimp only
  rw [show modifyPath (setKidsTo [descContainerWithTable "cnv"]) [0] doc0 = domA from rfl,
    show qselPath domA ("cnv" ++ fallbackTableId) = some [0, 0, 0] from rfl]
  dsimp only
  rw [show appendChildAt domA [0, 0, 0] (trNode ("cnv" ++ fallbackTableElId ++ k)) = domE0 k
      from rfl]
  rw [hrow]


lemma describeElement_fresh_core (n t : String) (display : Option String)
    (h1 : t ≠ "label") (h2 : t ≠ "fallback") (h3 : n ≠ "label") (h4 : n ≠ "fallback")
    (hk : ∀ c ∈ (sanitize n).data, c ≠ ' ') :
    describeElement doc0 ⟨"cnv", none, none⟩ n t display =
      descElementLabelPart "cnv" (sanitize n) (thtd (normN n) (normD t)) display
        (some (domE (sanitize n) (thtd (normN n) (normD t)))) (descsE (sanitize n)) := by
  unfold describeElement
  rw [descriptionText_ok t h1 h2, elementName_ok n h3 h4]
  dsimp only
  rw [show acquireDummy doc0 ⟨"cnv", none, none⟩ = Except.ok (some doc0) from rfl]
  dsimp only [Option.getD, emptyDescriptions, alookup]
  rw [descElementFallbackHTML_fresh (sanitize n) hk]
  dsimp only [aset]
  rfl



lemma describe_fresh_core (t : String) (display : Option String)
    (h1 : t ≠ "label") (h2 : t ≠ "fallback") :
    describe doc0 ⟨"cnv", none, none⟩ t display =
      describeLabelPart "cnv" (normD t) display (some (domF (normD t))) descsF := by
  unfold describe
  rw [descriptionText_ok t h1 h2]
  rfl


lemma describeLabelPart_other (c t : String) (display : Option String) (dd : Option DNode)
    (ds : Descriptions) (hd : display ≠ some "label") :
    describeLabelPart c t display dd ds = (none, ⟨c, dd, some ds⟩) := by
  unfold describeLabelPart
  rw [if_neg hd]


lemma describe_fresh (t : String) (display : Option String)
    (h1 : t ≠ "label") (h2 : t ≠ "fallback") (hd : display ≠ some "label") :
    describe doc0 st0 t display = (none, stF (normD t)) := by
  rw [show st0 = (⟨"cnv", none, none⟩ : PState) from rfl, describe_fresh_core t display h1 h2,
    describeLabelPart_other _ _ _ _ _ hd]
  rfl


lemma describe_fresh_label (t : String) (h1 : t ≠ "label") (h2 : t ≠ "fallback") :
    describe doc0 st0 t (some "label") =
      (none, ⟨"cnv", some (domFL (normD t)), some descsFL⟩) := by
  rw [show st0 = (⟨"cnv", none, none⟩ : PState) from rfl,
    describe_fresh_core t (some "label") h1 h2]
  rfl


lemma readRef_domF (s : String) : readRef (some (domF s)) [0, 0, 0] = s := by
  rw [show readRef (some (domF s)) [0, 0, 0] = s ++ "" from rfl, String.append_empty]


lemma describe_refresh_core (s t : String) (display : Option String)
    (h1 : t ≠ "label") (h2 : t ≠ "fallback") :
    describe doc0 (stF s) t display =
      describeLabelPart "cnv" (normD t) display (some (domF (normD t))) descsF := by
  unfold describe
  rw [descriptionText_ok t h1 h2]
  dsimp only
  rw [show acquireDummy doc0 (stF s) = Except.ok (some (domF s)) from rfl]
  dsimp only [stF, descsF, Option.getD]
  rw [readRef_domF s]
  by_cases hc : s = normD t
  · rw [if_pos hc, hc]
  · rw [if_neg hc]
    rfl


lemma describe_refresh (s t : String) (display : Option String)
    (h1 : t ≠ "label") (h2 : t ≠ "fallback") (hd : display ≠ some "label") :
    describe doc0 (stF s) t display = (none, stF (normD t)) := by
  rw [describe_refresh_core s t display h1 h2, describeLabelPart_other _ _ _ _ _ hd]
  rfl


lemma readRef_domE (k i : String) : readRef (some (domE k i)) [0, 0, 0, 1] = i := by
  rw [show readRef (some (domE k i)) [0, 0, 0, 1] = i ++ "" from rfl, String.append_empty]


lemma descElementLabelPart_other (c k i : String) (display : Option String) (dd : Option DNode)
    (ds : Descriptions) (hd : display ≠ some "label") :
    descElementLabelPart c k i display dd ds = (none, ⟨c, dd, some ds⟩) := by
  unfold descElementLabelPart
  rw [if_neg hd]


lemma describeElement_refresh_core (k i0 n t : String) (display : Option String)
    (h1 : t ≠ "label") (h2 : t ≠ "fallback") (h3 : n ≠ "label") (h4 : n ≠ "fallback")
    (hsan : sanitize n = k) :
    describeElement doc0 (stE k i0) n t display =
      descElementLabelPart "cnv" (sanitize n) (thtd (normN n) (normD t)) display
        (some (domE k (thtd (normN n) (normD t)))) (descsE k) := by
  unfold describeElement
  rw [descriptionText_ok t h1 h2, elementName_ok n h3 h4]
  dsimp only
  rw [show acquireDummy doc0 (stE k i0) = Except.ok (some (domE k i0)) from rfl]
  dsimp only [stE, descsE, Option.getD, alookup]
  rw [if_pos hsan.symm]
  dsimp only
  rw [readRef_domE k i0]
  by_cases hc : i0 = thtd (normN n) (normD t)
  · rw [if_pos hc, hc]
  · rw [if_neg hc]
    rfl



lemma take8_lte (k : String) : ("cnv_lte_" ++ k).data.take 8 = ("cnv_lte_" : String).data := by
  rfl


lemma lte_ne (k s : String) (h : s.data.take 8 ≠ ("cnv_lte_" : String).data) :
    ("cnv_lte_" ++ k) ≠ s ∧ s ≠ ("cnv_lte_" ++ k) := by
  constructor
  · intro he
    exact h (by rw [← he, take8_lte])
  · intro he
    exact h (by rw [he, take8_lte])


lemma fte_lte_ne (a b : String) :
    ("cnv_fte_" ++ a) ≠ ("cnv_lte_" ++ b) ∧ ("cnv_lte_" ++ b) ≠ ("cnv_fte_" ++ a) := by
  constructor
  · intro he
    have h8 := congrArg (fun l => l.take 8) (congrArg String.data he)
    simp only [take8_fte, take8_lte] at h8
    exact absurd h8 (by decide)
  · intro he
    have h8 := congrArg (fun l => l.take 8) (congrArg String.data he)
    simp only [take8_fte, take8_lte] at h8
    exact absurd h8 (by decide)


lemma nospace_lte (k : String) (hk : ∀ c ∈ k.data, c ≠ ' ') :
    ∀ c ∈ ("cnv_lte_" ++ k).data, c ≠ ' ' := by
  rw [String.data_append]
  intro c hc
  rcases List.mem_append.mp hc with h | h
  · have hconc : ∀ c ∈ ("cnv_lte_" : String).data, c ≠ ' ' := by decide
    exact hconc c h
  · exact hk c h


lemma lte_data_ne_nil (k : String) : ("cnv_lte_" ++ k).data ≠ [] := by
  rw [String.data_append]
  simp


lemma describe_on_stE_core (k i t : String) (display : Option String)
    (h1 : t ≠ "label") (h2 : t ≠ "fallback") :
    describe doc0 (stE k i) t display =
      describeLabelPart "cnv" (normD t) display (some (domM (normD t) k i)) (descsME k) := by
  unfold describe
  rw [descriptionText_ok t h1 h2]
  rfl


lemma findRow_domMF1 (s k : String) :
    findIdPath (domMF1 s k) ("cnv_fte_" ++ k) = some [0, 0, 1, 1] := by
  obtain ⟨n1, n1s⟩ := fte_ne k "main" (by decide)
  obtain ⟨n2, n2s⟩ := fte_ne k "cnv" (by decide)
  obtain ⟨n3, n3s⟩ := fte_ne k "cnv_Description" (by decide)
  obtain ⟨n4, n4s⟩ := fte_ne k "cnv_fallbackDesc" (by decide)
  obtain ⟨n5, n5s⟩ := fte_ne k "cnv_fallbackTable" (by decide)
  obtain ⟨n6, n6s⟩ := fte_ne k "" (by decide)
  simp [findIdPath, domMF1, allPaths, allPathsList, findIdIn, idAt, getPath, captionNode,
    n1s, n2s, n3s, n4s, n5s, n6s]


lemma descElementFallbackHTML_on_domF (s k : String) (hk : ∀ c ∈ k.data, c ≠ ' ') :
    descElementFallbackHTML (domF s) "cnv" k = HelperRes.ret (some [0, 0, 1, 1]) (domMF1 s k) := by
  have hrow : qselPath (domMF1 s k) ("cnv" ++ fallbackTableElId ++ k) = some [0, 0, 1, 1] := by
    rw [show ("cnv" : String) ++ fallbackTableElId ++ k = "cnv_fte_" ++ k from rfl,
      qselPath_nospace _ _ (fte_data_ne_nil k) (nospace_fte k hk), findRow_domMF1]
  unfold descElementFallbackHTML
  rw [show qselPath (domF s) ("cnv" ++ descContainer) = some [0, 0] from rfl,
    show qselPath (domF s) ("cnv" ++ fallbackTableId) = none from rfl,
    show qselPath (domF s) ("cnv" ++ fallbackDescId) = some [0, 0, 0] from rfl]
  dsimp only
  rw [show insertAfterPath (domF s) [0, 0, 0] (fallbackTable "cnv") = domMF0 s from rfl,
    show qselPath (domMF0 s) ("cnv" ++ fallbackTableId) = some [0, 0, 1] from rfl]
  dsimp only
  rw [show appendChildAt (domMF0 s) [0, 0, 1] (trNode ("cnv" ++ fallbackTableElId ++ k)) =
      domMF1 s k from rfl]
  rw [hrow]


lemma describeElement_on_stF_core (s n t : String) (display : Option String)
    (h1 : t ≠ "label") (h2 : t ≠ "fallback") (h3 : n ≠ "label") (h4 : n ≠ "fallback")
    (hk : ∀ c ∈ (sanitize n).data, c ≠ ' ') :
    describeElement doc0 (stF s) n t display =
      descElementLabelPart "cnv" (sanitize n) (thtd (normN n) (normD t)) display
        (some (domM s (sanitize n) (thtd (normN n) (normD t)))) (descsMF (sanitize n)) := by
  unfold describeElement
  rw [descriptionText_ok t h1 h2, elementName_ok n h3 h4]
  dsimp only
  rw [show acquireDummy doc0 (stF s) = Except.ok (some (domF s)) from rfl]
  dsimp only [stF, descsF, Option.getD, alookup]
  rw [descElementFallbackHTML_on_domF s (sanitize n) hk]
  dsimp only [aset]
  rfl



lemma findLabelDiv_domE (k i : String) : findIdPath (domE k i) "cnv_Label" = none := by
  obtain ⟨n1, n1s⟩ := fte_ne k "cnv_Label" (by decide)
  simp [findIdPath, domE, allPaths, allPathsList, findIdIn, idAt, getPath, captionNode, n1]


lemma findOutLabel_domE (k i : String) :
    findIdPath (domE k i) "cnvaccessibleOutputLabel" = none := by
  obtain ⟨n1, n1s⟩ := fte_ne k "cnvaccessibleOutputLabel" (by decide)
  simp [findIdPath, domE, allPaths, allPathsList, findIdIn, idAt, getPath, captionNode, n1]


lemma findLabelTable_domEL0 (k i : String) :
    findIdPath (domEL0 k i) "cnv_labelTable" = some [1, 0] := by
  obtain ⟨n1, n1s⟩ := fte_ne k "cnv_labelTable" (by decide)
  simp [findIdPath, domEL0, allPaths, allPathsList, findIdIn, idAt, getPath, captionNode, n1]


lemma findLabelRow_domEL1 (k i : String) :
    findIdPath (domEL1 k i) ("cnv_lte_" ++ k) = some [1, 0, 0] := by
  obtain ⟨m1, m1s⟩ := lte_ne k "main" (by decide)
  obtain ⟨m2, m2s⟩ := lte_ne k "cnv" (by decide)
  obtain ⟨m3, m3s⟩ := lte_ne k "cnv_Description" (by decide)
  obtain ⟨m4, m4s⟩ := lte_ne k "cnv_fallbackTable" (by decide)
  obtain ⟨m5, m5s⟩ := lte_ne k "" (by decide)
  obtain ⟨m6, m6s⟩ := lte_ne k "cnv_Label" (by decide)
  obtain ⟨m7, m7s⟩ := lte_ne k "cnv_labelTable" (by decide)
  obtain ⟨m8, m8s⟩ := fte_lte_ne k k
  simp [findIdPath, domEL1, allPaths, allPathsList, findIdIn, idAt, getPath, captionNode,
    m1s, m2s, m3s, m4s, m5s, m6s, m7s, m8]


lemma descElementLabelHTML_on_domE (k i : String) (hk : ∀ c ∈ k.data, c ≠ ' ') :
    descElementLabelHTML (domE k i) "cnv" k = HelperRes.ret (some [1, 0, 0]) (domEL1 k i) := by
  have hrow : qselPath (domEL1 k i) ("cnv" ++ labelTableElId ++ k) = some [1, 0, 0] := by
    rw [show ("cnv" : String) ++ labelTableElId ++ k = "cnv_lte_" ++ k from rfl,
      qselPath_nospace _ _ (lte_data_ne_nil k) (nospace_lte k hk), findLabelRow_domEL1]
  unfold descElementLabelHTML
  rw [show qselPath (domE k i) ("cnv" ++ labelContainer) =
      findIdPath (domE k i) "cnv_Label" from rfl, findLabelDiv_domE,
    show qselPath (domE k i) ("cnv" ++ "accessibleOutputLabel") =
      findIdPath (domE k i) "cnvaccessibleOutputLabel" from rfl, findOutLabel_domE,
    show qselPath (domE k i) "cnv" = some [0] from rfl]
  dsimp only
  rw [show insertAfterPath (domE k i) [0] (labelContainerWithTable "cnv") = domEL0 k i from rfl,
    show qselPath (domEL0 k i) ("cnv" ++ labelTableId) =
      findIdPath (domEL0 k i) "cnv_labelTable" from rfl, findLabelTable_domEL0]
  dsimp only
  rw [show appendChildAt (domEL0 k i) [1, 0] (trNode ("cnv" ++ labelTableElId ++ k)) =
      domEL1 k i from rfl]
  rw [hrow]


lemma describeElement_fresh_label (n t : String)
    (h1 : t ≠ "label") (h2 : t ≠ "fallback") (h3 : n ≠ "label") (h4 : n ≠ "fallback")
    (hk : ∀ c ∈ (sanitize n).data, c ≠ ' ') :
    describeElement doc0 st0 n t (some "label") =
      (none, ⟨"cnv", some (domEL (sanitize n) (thtd (normN n) (normD t))),
        some (descsEL (sanitize n))⟩) := by
  rw [show st0 = (⟨"cnv", none, none⟩ : PState) from rfl,
    describeElement_fresh_core n t (some "label") h1 h2 h3 h4 hk]
  unfold descElementLabelPart
  rw [if_pos rfl]
  dsimp only [Option.getD, alookup]
  rw [descElementLabelHTML_on_domE (sanitize n) (thtd (normN n) (normD t)) hk]
  dsimp only [aset]
  rfl



lemma findRow_domE (k i : String) :
    findIdPath (domE k i) ("cnv_fte_" ++ k) = some [0, 0, 0, 1] := by
  obtain ⟨n1, n1s⟩ := fte_ne k "main" (by decide)
  obtain ⟨n2, n2s⟩ := fte_ne k "cnv" (by decide)
  obtain ⟨n3, n3s⟩ := fte_ne k "cnv_Description" (by decide)
  obtain ⟨n4, n4s⟩ := fte_ne k "cnv_fallbackTable" (by decide)
  obtain ⟨n5, n5s⟩ := fte_ne k "" (by decide)
  simp [findIdPath, domE, allPaths, allPathsList, findIdIn, idAt, getPath, captionNode,
    n1s, n2s, n3s, n4s, n5s]


lemma qselRow_domE (k i : String) (hk : ∀ c ∈ k.data, c ≠ ' ') :
    qselPath (domE k i) ("cnv" ++ fallbackTableElId ++ k) = some [0, 0, 0, 1] := by
  rw [show ("cnv" : String) ++ fallbackTableElId ++ k = "cnv_fte_" ++ k from rfl,
    qselPath_nospace _ _ (fte_data_ne_nil k) (nospace_fte k hk), findRow_domE]


lemma not_lte_prefix_fte (k : String) :
    ¬ (("cnv_lte_" : String).data <+: ("cnv_fte_" ++ k).data) := by
  rintro ⟨t, ht⟩
  have h8 := congrArg (List.take 8) ht
  rw [show List.take 8 (("cnv_lte_" : String).data ++ t) = ("cnv_lte_" : String).data from rfl,
    take8_fte] at h8
  exact absurd h8 (by decide)


lemma count_row_domE (k i : String) : countId (domE k i) ("cnv_fte_" ++ k) = 1 := by
  obtain ⟨n1, n1s⟩ := fte_ne k "main" (by decide)
  obtain ⟨n2, n2s⟩ := fte_ne k "cnv" (by decide)
  obtain ⟨n3, n3s⟩ := fte_ne k "cnv_Description" (by decide)
  obtain ⟨n4, n4s⟩ := fte_ne k "cnv_fallbackTable" (by decide)
  obtain ⟨n5, n5s⟩ := fte_ne k "" (by decide)
  rw [countId, show idsOf (domE k i) =
      ["main", "cnv", "cnv_Description", "cnv_fallbackTable", "", "cnv_fte_" ++ k] from rfl]
  simp [List.count_cons, n1s, n2s, n3s, n4s, n5s]



lemma describeElement_fresh (n t : String) (display : Option String)
    (h1 : t ≠ "label") (h2 : t ≠ "fallback") (h3 : n ≠ "label") (h4 : n ≠ "fallback")
    (hk : ∀ c ∈ (sanitize n).data, c ≠ ' ') (hd : display ≠ some "label") :
    describeElement doc0 st0 n t display =
      (none, stE (sanitize n) (thtd (normN n) (normD t))) := by
  rw [show st0 = (⟨"cnv", none, none⟩ : PState) from rfl,
    describeElement_fresh_core n t display h1 h2 h3 h4 hk,
    descElementLabelPart_other _ _ _ _ _ _ hd]
  rfl


lemma describeElement_refresh (k i0 n t : String) (display : Option String)
    (h1 : t ≠ "label") (h2 : t ≠ "fallback") (h3 : n ≠ "label") (h4 : n ≠ "fallback")
    (hsan : sanitize n = k) (hd : display ≠ some "label") :
    describeElement doc0 (stE k i0) n t display =
      (none, stE k (thtd (normN n) (normD t))) := by
  rw [describeElement_refresh_core k i0 n t display h1 h2 h3 h4 hsan,
    descElementLabelPart_other _ _ _ _ _ _ hd]
  rfl


lemma describe_on_stE (k i t : String) (display : Option String)
    (h1 : t ≠ "label") (h2 : t ≠ "fallback") (hd : display ≠ some "label") :
    describe doc0 (stE k i) t display =
      (none, ⟨"cnv", some (domM (normD t) k i), some (descsME k)⟩) := by
  rw [describe_on_stE_core k i t display h1 h2, describeLabelPart_other _ _ _ _ _ hd]


lemma describeElement_on_stF (s n t : String) (display : Option String)
    (h1 : t ≠ "label") (h2 : t ≠ "fallback") (h3 : n ≠ "label") (h4 : n ≠ "fallback")
    (hk : ∀ c ∈ (sanitize n).data, c ≠ ' ') (hd : display ≠ some "label") :
    describeElement doc0 (stF s) n t display =
      (none, ⟨"cnv", some (domM s (sanitize n) (thtd (normN n) (normD t))),
        some (descsMF (sanitize n))⟩) := by
  rw [describeElement_on_stF_core s n t display h1 h2 h3 h4 hk,
    descElementLabelPart_other _ _ _ _ _ _ hd]



/-- Counterexample to the C2 claim: the name a b is neither label nor
fallback and its sanitized key keeps the space, yet describeElement throws a
TypeError, because the querySelector lookup of the row id parses the space
as a descendant combinator and returns null. -/
theorem c2_counterexample :
    (describeElement doc0 st0 "a b" "x" none).1 = some JsErr.typeErr := rfl


/-- Amended C2 claim: for every non-reserved name whose sanitized key
contains no space, describeElement completes without throwing, the created
row node carries the id canvasId ++ _fte_ ++ key, and looking that id up
again resolves to the same row node (spaces, though kept by the sanitizer,
break the lookup and are excluded). -/
theorem c2_amended (n t : String)
    (h1 : t ≠ "label") (h2 : t ≠ "fallback") (h3 : n ≠ "label") (h4 : n ≠ "fallback")
    (hk : ∀ c ∈ (sanitize n).data, c ≠ ' ') :
    describeElement doc0 st0 n t none =
      (none, stE (sanitize n) (thtd (normN n) (normD t))) ∧
    getPath [0, 0, 0, 1] (domE (sanitize n) (thtd (normN n) (normD t))) =
      some (.elem "tr" ("cnv" ++ fallbackTableElId ++ sanitize n) []
        [.text (thtd (normN n) (normD t))]) ∧
    qselPath (domE (sanitize n) (thtd (normN n) (normD t)))
      ("cnv" ++ fallbackTableElId ++ sanitize n) = some [0, 0, 0, 1] :=
  ⟨describeElement_fresh n t none h1 h2 h3 h4 hk (by simp), rfl, qselRow_domE _ _ hk⟩


/-- Witness for c2_amended at the concrete name of the spec, Sun!. -/
theorem c2_witness :
    describeElement doc0 st0 "Sun!" "a" none =
      (none, stE (sanitize "Sun!") (thtd (normN "Sun!") (normD "a"))) ∧
    getPath [0, 0, 0, 1] (domE (sanitize "Sun!") (thtd (normN "Sun!") (normD "a"))) =
      some (.elem "tr" ("cnv" ++ fallbackTableElId ++ sanitize "Sun!") []
        [.text (thtd (normN "Sun!") (normD "a"))]) ∧
    qselPath (domE (sanitize "Sun!") (thtd (normN "Sun!") (normD "a")))
      ("cnv" ++ fallbackTableElId ++ sanitize "Sun!") = some [0, 0, 0, 1] :=
  c2_amended "Sun!" "a" (by decide) (by decide) (by decide) (by decide) (by decide)


/-- Counterexample to the C3 claim: for the key a b (sanitized key with a
space) the first call creates the row but stores a null reference, so the
second call with the same key constructs a second row with the same id
instead of refreshing the existing node in place. -/
theorem c3_counterexample :
    ((describeElement doc0 st0 "a b" "x" none).2.dummyDOM.map
      (fun d => countId d "cnv_fte_a b")) = some 1 ∧
    ((describeElement doc0 (describeElement doc0 st0 "a b" "x" none).2
        "a b" "y" none).2.dummyDOM.map
      (fun d => countId d "cnv_fte_a b")) = some 2 :=
  ⟨rfl, rfl⟩


/-- Amended C3 claim: for the whole-canvas description, and for element
keys containing no space, the absent-to-present transition happens exactly
once; a second call with the same key leaves the id multiset unchanged and
refreshes the content in place, and in particular two describe calls with
the same text leave exactly one fallback description node. -/
theorem c3_amended (t1 t2 n u1 u2 : String)
    (ha1 : t1 ≠ "label") (ha2 : t1 ≠ "fallback") (hb1 : t2 ≠ "label") (hb2 : t2 ≠ "fallback")
    (hc1 : u1 ≠ "label") (hc2 : u1 ≠ "fallback") (hd1 : u2 ≠ "label") (hd2 : u2 ≠ "fallback")
    (hn1 : n ≠ "label") (hn2 : n ≠ "fallback")
    (hk : ∀ c ∈ (sanitize n).data, c ≠ ' ') :
    (describe doc0 st0 t1 none = (none, stF (normD t1)) ∧
     describe doc0 (stF (normD t1)) t2 none = (none, stF (normD t2)) ∧
     idsOf (domF (normD t1)) = idsOf (domF (normD t2)) ∧
     countId (domF (normD t2)) ("cnv" ++ fallbackDescId) = 1) ∧
    (describeElement doc0 st0 n u1 none =
       (none, stE (sanitize n) (thtd (normN n) (normD u1))) ∧
     describeElement doc0 (stE (sanitize n) (thtd (normN n) (normD u1))) n u2 none =
       (none, stE (sanitize n) (thtd (normN n) (normD u2))) ∧
     countId (domE (sanitize n) (thtd (normN n) (normD u2)))
       ("cnv" ++ fallbackTableElId ++ sanitize n) = 1) := by
  refine ⟨⟨describe_fresh t1 none ha1 ha2 (by simp),
      describe_refresh (normD t1) t2 none hb1 hb2 (by simp), rfl, rfl⟩,
    describeElement_fresh n u1 none hc1 hc2 hn1 hn2 hk (by simp),
    describeElement_refresh (sanitize n) _ n u2 none hd1 hd2 hn1 hn2 rfl (by simp), ?_⟩
  rw [show ("cnv" : String) ++ fallbackTableElId ++ sanitize n = "cnv_fte_" ++ sanitize n
    from rfl]
  exact count_row_domE _ _


/-- Witness for c3_amended at the concrete inputs of the spec. -/
theorem c3_witness :
    (describe doc0 st0 "Red circle" none = (none, stF (normD "Red circle")) ∧
     describe doc0 (stF (normD "Red circle")) "Red circle" none =
       (none, stF (normD "Red circle")) ∧
     idsOf (domF (normD "Red circle")) = idsOf (domF (normD "Red circle")) ∧
     countId (domF (normD "Red circle")) ("cnv" ++ fallbackDescId) = 1) ∧
    (describeElement doc0 st0 "Circle" "a" none =
       (none, stE (sanitize "Circle") (thtd (normN "Circle") (normD "a"))) ∧
     describeElement doc0 (stE (sanitize "Circle") (thtd (normN "Circle") (normD "a")))
       "Circle" "b" none =
       (none, stE (sanitize "Circle") (thtd (normN "Circle") (normD "b"))) ∧
     countId (domE (sanitize "Circle") (thtd (normN "Circle") (normD "b")))
       ("cnv" ++ fallbackTableElId ++ sanitize "Circle") = 1) :=
  c3_amended "Red circle" "Red circle" "Circle" "a" "b"
    (by decide) (by decide) (by decide) (by decide) (by decide) (by decide)
    (by decide) (by decide) (by decide) (by decide) (by decide)


/-- The C4 claim: whichever of describe and describeElement runs first,
both orders converge to the same container in which the description
paragraph precedes the element table in document order; in particular
calling describe after the fallback table exists inserts the paragraph
before the table. -/
theorem c4_ordering (n t u : String)
    (h1 : t ≠ "label") (h2 : t ≠ "fallback") (h3 : u ≠ "label") (h4 : u ≠ "fallback")
    (h5 : n ≠ "label") (h6 : n ≠ "fallback")
    (hk : ∀ c ∈ (sanitize n).data, c ≠ ' ') :
    (describeElement doc0 st0 n u none =
       (none, stE (sanitize n) (thtd (normN n) (normD u))) ∧
     describe doc0 (stE (sanitize n) (thtd (normN n) (normD u))) t none =
       (none, ⟨"cnv", some (domM (normD t) (sanitize n) (thtd (normN n) (normD u))),
         some (descsME (sanitize n))⟩)) ∧
    (describe doc0 st0 t none = (none, stF (normD t)) ∧
     describeElement doc0 (stF (normD t)) n u none =
       (none, ⟨"cnv", some (domM (normD t) (sanitize n) (thtd (normN n) (normD u))),
         some (descsMF (sanitize n))⟩)) ∧
    (∀ s k i : String, getPath [0, 0] (domM s k i) =
      some (.elem "div" "cnv_Description" descRegionAttrs
        [.elem "p" "cnv_fallbackDesc" [] [.text s],
         .elem "table" "cnv_fallbackTable" []
           [captionNode, .elem "tr" ("cnv_fte_" ++ k) [] [.text i]]])) :=
  ⟨⟨describeElement_fresh n u none h3 h4 h5 h6 hk (by simp),
    describe_on_stE _ _ t none h1 h2 (by simp)⟩,
   ⟨describe_fresh t none h1 h2 (by simp),
    describeElement_on_stF _ n u none h3 h4 h5 h6 hk (by simp)⟩,
   fun s k i => rfl⟩


/-- Witness for c4_ordering at concrete inputs. -/
theorem c4_witness :
    (describeElement doc0 st0 "Circle" "a" none =
       (none, stE (sanitize "Circle") (thtd (normN "Circle") (normD "a"))) ∧
     describe doc0 (stE (sanitize "Circle") (thtd (normN "Circle") (normD "a"))) "whole" none =
       (none, ⟨"cnv", some (domM (normD "whole") (sanitize "Circle")
           (thtd (normN "Circle") (normD "a"))),
         some (descsME (sanitize "Circle"))⟩)) ∧
    (describe doc0 st0 "whole" none = (none, stF (normD "whole")) ∧
     describeElement doc0 (stF (normD "whole")) "Circle" "a" none =
       (none, ⟨"cnv", some (domM (normD "whole") (sanitize "Circle")
           (thtd (normN "Circle") (normD "a"))),
         some (descsMF (sanitize "Circle"))⟩)) ∧
    (∀ s k i : String, getPath [0, 0] (domM s k i) =
      some (.elem "div" "cnv_Description" descRegionAttrs
        [.elem "p" "cnv_fallbackDesc" [] [.text s],
         .elem "table" "cnv_fallbackTable" []
           [captionNode, .elem "tr" ("cnv_fte_" ++ k) [] [.text i]]])) :=
  c4_ordering "Circle" "whole" "a"
    (by decide) (by decide) (by decide) (by decide) (by decide) (by decide) (by decide)


/-- Counterexample to the C6 claim: the two distinct names a b! and a b?
sanitize to the same key a b, but because the key contains a space the
second call appends a second row with the same id rather than silently
overwriting the first row. -/
theorem c6_counterexample :
    ((describeElement doc0 (describeElement doc0 st0 "a b!" "x" none).2
        "a b?" "y" none).2.dummyDOM.map
      (fun d => countId d "cnv_fte_a b")) = some 2 := rfl


/-- Amended C6 claim: for two distinct names that sanitize to the same
space-free key, successive describeElement calls address the same store
slot and the same DOM row; the later call overwrites the row content
(last-write-wins) and no second row is created. -/
theorem c6_amended (n1 n2 t1 t2 : String)
    (ha1 : t1 ≠ "label") (ha2 : t1 ≠ "fallback") (hb1 : t2 ≠ "label") (hb2 : t2 ≠ "fallback")
    (hn11 : n1 ≠ "label") (hn12 : n1 ≠ "fallback") (hn21 : n2 ≠ "label") (hn22 : n2 ≠ "fallback")
    (_hdist : n1 ≠ n2) (hkey : sanitize n1 = sanitize n2)
    (hk : ∀ c ∈ (sanitize n1).data, c ≠ ' ') :
    describeElement doc0 st0 n1 t1 none =
      (none, stE (sanitize n1) (thtd (normN n1) (normD t1))) ∧
    describeElement doc0 (stE (sanitize n1) (thtd (normN n1) (normD t1))) n2 t2 none =
      (none, stE (sanitize n1) (thtd (normN n2) (normD t2))) ∧
    countId (domE (sanitize n1) (thtd (normN n2) (normD t2))) ("cnv_fte_" ++ sanitize n1) = 1 ∧
    (descsE (sanitize n1)).fallbackElements = some [(sanitize n1, some [0, 0, 0, 1])] :=
  ⟨describeElement_fresh n1 t1 none ha1 ha2 hn11 hn12 hk (by simp),
   describeElement_refresh (sanitize n1) _ n2 t2 none hb1 hb2 hn21 hn22 hkey.symm (by simp),
   count_row_domE _ _, rfl⟩


/-- Witness for c6_amended at the aliasing pair Sun? and Sun., which both
sanitize to Sun. -/
theorem c6_witness :
    describeElement doc0 st0 "Sun?" "a" none =
      (none, stE (sanitize "Sun?") (thtd (normN "Sun?") (normD "a"))) ∧
    describeElement doc0 (stE (sanitize "Sun?") (thtd (normN "Sun?") (normD "a")))
      "Sun." "b" none =
      (none, stE (sanitize "Sun?") (thtd (normN "Sun.") (normD "b"))) ∧
    countId (domE (sanitize "Sun?") (thtd (normN "Sun.") (normD "b")))
      ("cnv_fte_" ++ sanitize "Sun?") = 1 ∧
    (descsE (sanitize "Sun?")).fallbackElements = some [(sanitize "Sun?", some [0, 0, 0, 1])] :=
  c6_amended "Sun?" "Sun." "a" "b" (by decide) (by decide) (by decide) (by decide)
    (by decide) (by decide) (by decide) (by decide) (by decide) (by decide) (by decide)



lemma labelFree_domE (k i : String) : ∀ x ∈ idsOf (domE k i),
    x ≠ "cnv_Label" ∧ x ≠ "cnv_labelDesc" ∧ x ≠ "cnv_labelTable" ∧
    ¬ (("cnv_lte_" : String).data <+: x.data) := by
  rw [show idsOf (domE k i) =
      ["main", "cnv", "cnv_Description", "cnv_fallbackTable", "", "cnv_fte_" ++ k] from rfl]
  intro x hx
  simp only [List.mem_cons, List.mem_singleton, List.not_mem_nil, or_false] at hx
  rcases hx with h | h | h | h | h | h
  all_goals subst h
  · exact ⟨by decide, by decide, by decide, by decide⟩
  · exact ⟨by decide, by decide, by decide, by decide⟩
  · exact ⟨by decide, by decide, by decide, by decide⟩
  · exact ⟨by decide, by decide, by decide, by decide⟩
  · exact ⟨by decide, by decide, by decide, by decide⟩
  · exact ⟨(fte_ne k "cnv_Label" (by decide)).1, (fte_ne k "cnv_labelDesc" (by decide)).1,
      (fte_ne k "cnv_labelTable" (by decide)).1, not_lte_prefix_fte k⟩


lemma findFteRow_domEL (k i : String) :
    findIdPath (domEL k i) ("cnv_fte_" ++ k) = some [0, 0, 0, 1] := by
  obtain ⟨n1, n1s⟩ := fte_ne k "main" (by decide)
  obtain ⟨n2, n2s⟩ := fte_ne k "cnv" (by decide)
  obtain ⟨n3, n3s⟩ := fte_ne k "cnv_Description" (by decide)
  obtain ⟨n4, n4s⟩ := fte_ne k "cnv_fallbackTable" (by decide)
  obtain ⟨n5, n5s⟩ := fte_ne k "" (by decide)
  simp [findIdPath, domEL, allPaths, allPathsList, findIdIn, idAt, getPath, captionNode,
    n1s, n2s, n3s, n4s, n5s]


lemma findLteRow_domEL (k i : String) :
    findIdPath (domEL k i) ("cnv_lte_" ++ k) = some [1, 0, 0] := by
  obtain ⟨m1, m1s⟩ := lte_ne k "main" (by decide)
  obtain ⟨m2, m2s⟩ := lte_ne k "cnv" (by decide)
  obtain ⟨m3, m3s⟩ := lte_ne k "cnv_Description" (by decide)
  obtain ⟨m4, m4s⟩ := lte_ne k "cnv_fallbackTable" (by decide)
  obtain ⟨m5, m5s⟩ := lte_ne k "" (by decide)
  obtain ⟨m6, m6s⟩ := lte_ne k "cnv_Label" (by decide)
  obtain ⟨m7, m7s⟩ := lte_ne k "cnv_labelTable" (by decide)
  obtain ⟨m8, m8s⟩ := fte_lte_ne k k
  simp [findIdPath, domEL, allPaths, allPathsList, findIdIn, idAt, getPath, captionNode,
    m1s, m2s, m3s, m4s, m5s, m6s, m7s, m8]


/-- The C7 claim: a call whose display argument is not the LABEL constant
creates no label-region DOM node and no label store entry, while a call
with LABEL creates both the fallback node and the label node, for describe
and describeElement alike. -/
theorem c7_mode (t n u : String) (display : Option String)
    (h1 : t ≠ "label") (h2 : t ≠ "fallback") (h3 : u ≠ "label") (h4 : u ≠ "fallback")
    (h5 : n ≠ "label") (h6 : n ≠ "fallback")
    (hk : ∀ c ∈ (sanitize n).data, c ≠ ' ') (hd : display ≠ some "label") :
    (describe doc0 st0 t display = (none, stF (normD t)) ∧
     (∀ x ∈ idsOf (domF (normD t)),
        x ≠ "cnv_Label" ∧ x ≠ "cnv_labelDesc" ∧ x ≠ "cnv_labelTable" ∧
        ¬ (("cnv_lte_" : String).data <+: x.data)) ∧
     descsF.label = none ∧ descsF.labelElements = none) ∧
    (describeElement doc0 st0 n u display =
       (none, stE (sanitize n) (thtd (normN n) (normD u))) ∧
     (∀ x ∈ idsOf (domE (sanitize n) (thtd (normN n) (normD u))),
        x ≠ "cnv_Label" ∧ x ≠ "cnv_labelDesc" ∧ x ≠ "cnv_labelTable" ∧
        ¬ (("cnv_lte_" : String).data <+: x.data)) ∧
     (descsE (sanitize n)).label = none ∧ (descsE (sanitize n)).labelElements = none) ∧
    (describe doc0 st0 t (some "label") =
       (none, ⟨"cnv", some (domFL (normD t)), some descsFL⟩) ∧
     findIdPath (domFL (normD t)) "cnv_fallbackDesc" = some [0, 0, 0] ∧
     findIdPath (domFL (normD t)) "cnv_labelDesc" = some [1, 0] ∧
     descsFL.fallback = some [0, 0, 0] ∧ descsFL.label = some [1, 0]) ∧
    (describeElement doc0 st0 n u (some "label") =
       (none, ⟨"cnv", some (domEL (sanitize n) (thtd (normN n) (normD u))),
         some (descsEL (sanitize n))⟩) ∧
     findIdPath (domEL (sanitize n) (thtd (normN n) (normD u)))
       ("cnv_fte_" ++ sanitize n) = some [0, 0, 0, 1] ∧
     findIdPath (domEL (sanitize n) (thtd (normN n) (normD u)))
       ("cnv_lte_" ++ sanitize n) = some [1, 0, 0] ∧
     (descsEL (sanitize n)).fallbackElements = some [(sanitize n, some [0, 0, 0, 1])] ∧
     (descsEL (sanitize n)).labelElements = some [(sanitize n, some [1, 0, 0])]) :=
  ⟨⟨describe_fresh t display h1 h2 hd,
    by
      rw [show idsOf (domF (normD t)) =
        ["main", "cnv", "cnv_Description", "cnv_fallbackDesc"] from rfl]
      decide, rfl, rfl⟩,
   ⟨describeElement_fresh n u display h3 h4 h5 h6 hk hd, labelFree_domE _ _, rfl, rfl⟩,
   ⟨describe_fresh_label t h1 h2, rfl, rfl, rfl, rfl⟩,
   ⟨describeElement_fresh_label n u h3 h4 h5 h6 hk,
    findFteRow_domEL _ _, findLteRow_domEL _ _, rfl, rfl⟩⟩


/-- Witness for c7_mode at concrete inputs with display omitted. -/
theorem c7_witness :
    (describe doc0 st0 "w" none = (none, stF (normD "w")) ∧
     (∀ x ∈ idsOf (domF (normD "w")),
        x ≠ "cnv_Label" ∧ x ≠ "cnv_labelDesc" ∧ x ≠ "cnv_labelTable" ∧
        ¬ (("cnv_lte_" : String).data <+: x.data)) ∧
     descsF.label = none ∧ descsF.labelElements = none) ∧
    (describeElement doc0 st0 "Heart" "a" none =
       (none, stE (sanitize "Heart") (thtd (normN "Heart") (normD "a"))) ∧
     (∀ x ∈ idsOf (domE (sanitize "Heart") (thtd (normN "Heart") (normD "a"))),
        x ≠ "cnv_Label" ∧ x ≠ "cnv_labelDesc" ∧ x ≠ "cnv_labelTable" ∧
        ¬ (("cnv_lte_" : String).data <+: x.data)) ∧
     (descsE (sanitize "Heart")).label = none ∧
     (descsE (sanitize "Heart")).labelElements = none) ∧
    (describe doc0 st0 "w" (some "label") =
       (none, ⟨"cnv", some (domFL (normD "w")), some descsFL⟩) ∧
     findIdPath (domFL (normD "w")) "cnv_fallbackDesc" = some [0, 0, 0] ∧
     findIdPath (domFL (normD "w")) "cnv_labelDesc" = some [1, 0] ∧
     descsFL.fallback = some [0, 0, 0] ∧ descsFL.label = some [1, 0]) ∧
    (describeElement doc0 st0 "Heart" "a" (some "label") =
       (none, ⟨"cnv", some (domEL (sanitize "Heart") (thtd (normN "Heart") (normD "a"))),
         some (descsEL (sanitize "Heart"))⟩) ∧
     findIdPath (domEL (sanitize "Heart") (thtd (normN "Heart") (normD "a")))
       ("cnv_fte_" ++ sanitize "Heart") = some [0, 0, 0, 1] ∧
     findIdPath (domEL (sanitize "Heart") (thtd (normN "Heart") (normD "a")))
       ("cnv_lte_" ++ sanitize "Heart") = some [1, 0, 0] ∧
     (descsEL (sanitize "Heart")).fallbackElements =
       some [(sanitize "Heart", some [0, 0, 0, 1])] ∧
     (descsEL (sanitize "Heart")).labelElements = some [(sanitize "Heart", some [1, 0, 0])]) :=
  c7_mode "w" "Heart" "a" none (by decide) (by decide) (by decide) (by decide)
    (by decide) (by decide) (by decide) (by simp)

end Describe
